import Mathlib

/-!
Shallow embedding of the menu-event validation and dispatch bridge of the
Todo-App native shell (src/src-tauri/src/main.rs), together with theorems
settling the specified properties of the dispatcher, the allow-list and the
explicit sign-out command.
-/

namespace TodoApp

/-- Allowed menu event IDs for input validation
(src/src-tauri/src/main.rs:10, `const ALLOWED_MENU_IDS: &[&str]`). -/
def ALLOWED_MENU_IDS : List String := ["preferences", "sign_out"]

/-- Validates that a menu event ID is in the allowlist
(src/src-tauri/src/main.rs:14-16, `fn is_valid_menu_id`):
`ALLOWED_MENU_IDS.contains(&id)`. -/
def is_valid_menu_id (id : String) : Bool :=
  ALLOWED_MENU_IDS.contains id

/-- A webview window handle of the host framework. `label` is the window's
label (`window.label()`); `emitFails` records whether the underlying
`window.emit` call fails for this window (the external signal bus is an
outside collaborator, so its success or failure is part of the model's
environment). -/
structure Window where
  label : String
  emitFails : Bool
deriving DecidableEq, Repr

/-- The host application handle: the set of currently existing webview
windows. -/
structure App where
  windows : List Window
deriving DecidableEq, Repr

/-- The host framework's `app.get_webview_window(label)`: looks up the
window whose label is `label`, returning `none` when no such window
currently exists. -/
def get_webview_window (app : App) (label : String) : Option Window :=
  app.windows.find? (fun w => w.label == label)

/-- One emission into the webview's event bus: `window.emit(name, ())`.
The payload is always unit in this program. -/
structure Emission where
  targetLabel : String
  name : String
  payload : Unit
deriving DecidableEq, Repr

/-- The host framework's fallible emission call `window.emit(name, ())`,
returning `Ok(())` or an error (src/src-tauri/src/main.rs:157,174). -/
def emit (window : Window) (name : String) : Except String Unit :=
  if window.emitFails then Except.error ("failed to emit " ++ name)
  else Except.ok ()

/-- Terminal states of one dispatch, as in the spec's state machine:
discarded-invalid-id, discarded-no-window, discarded-wrong-label,
emitted, emit-failed-nonfatal; `noopUnhandled` is the explicit `_ => {}`
arm of the match. -/
inductive DispatchOutcome
  | discardedInvalidId
  | discardedNoWindow
  | discardedWrongLabel
  | emitted
  | emitFailedNonfatal
  | noopUnhandled
deriving DecidableEq, Repr

/-- The observable result of one dispatcher invocation: the list of emit
calls made (in order) and the terminal state reached. The dispatcher's
Lean type is total because every error path in the source is locally
absorbed (early `return`s and `unwrap_or_else`). -/
structure DispatchResult where
  signals : List Emission
  outcome : DispatchOutcome
deriving DecidableEq, Repr

/-- The shared body of the two emitting match arms
(src/src-tauri/src/main.rs:150-161 and 167-178): given the result of
`app.get_webview_window("main")`, validate the window label before
emitting, then emit `name` with `unwrap_or_else` absorbing an emission
error (log and continue). -/
def emit_to_main (resolved : Option Window) (name : String) : DispatchResult :=
  match resolved with
  | some window =>
    if window.label ≠ "main" then
      { signals := [], outcome := DispatchOutcome.discardedWrongLabel }
    else
      match emit window name with
      | Except.ok _ =>
        { signals := [⟨window.label, name, ()⟩], outcome := DispatchOutcome.emitted }
      | Except.error _ =>
        { signals := [⟨window.label, name, ()⟩], outcome := DispatchOutcome.emitFailedNonfatal }
  | none => { signals := [], outcome := DispatchOutcome.discardedNoWindow }

/-- The body of the `on_menu_event` closure
(src/src-tauri/src/main.rs:133-181), parameterized by the window the
lookup `app.get_webview_window("main")` resolves to: Layer 1 rejects
identifiers outside the allow-list with an early return; the match then
handles `"preferences"` and `"sign_out"`, with `_ => {}` for every other
identifier. -/
def menu_dispatch_with (resolved : Option Window) (event_id : String) : DispatchResult :=
  if is_valid_menu_id event_id = false then
    { signals := [], outcome := DispatchOutcome.discardedInvalidId }
  else if event_id = "preferences" then
    emit_to_main resolved "navigate-to-preferences"
  else if event_id = "sign_out" then
    emit_to_main resolved "sign-out-user"
  else
    { signals := [], outcome := DispatchOutcome.noopUnhandled }

/-- The `on_menu_event` closure as wired in `main`: the window is resolved
by `app.get_webview_window("main")` inside each emitting arm
(src/src-tauri/src/main.rs:150,167); since both arms perform the same
lookup on the same `app`, the dispatch is the closure body applied to that
lookup's result. -/
def on_menu_event (app : App) (event_id : String) : DispatchResult :=
  menu_dispatch_with (get_webview_window app "main") event_id

/-- The dispatcher with the Layer 1 allow-list guard removed (the
`is_valid_menu_id` early return deleted, everything else unchanged), used
to compare observable behavior with the guarded dispatcher. -/
def menu_dispatch_no_guard (resolved : Option Window) (event_id : String) : DispatchResult :=
  if event_id = "preferences" then
    emit_to_main resolved "navigate-to-preferences"
  else if event_id = "sign_out" then
    emit_to_main resolved "sign-out-user"
  else
    { signals := [], outcome := DispatchOutcome.noopUnhandled }

/-- Modelled from the spec: the explicitly invokable `sign_out` command
(spec sections 4.2 and 6). The command body is absent from `src/` in this
snapshot — only its registration site
`.invoke_handler(tauri::generate_handler![])` at
src/src-tauri/src/main.rs:187 is present, with an empty handler list — so
this definition follows the spec's words: an action with no arguments that
"unconditionally emits a `sign-out` signal to the calling window", with no
validation and no reference to the allow-list. -/
def sign_out (window : Window) : List Emission :=
  [⟨window.label, "sign-out", ()⟩]

/-- Process state for the runtime-immutability claim: the allow-list
value, the current window set, and the log of all emissions so far. -/
structure ProcState where
  allowList : List String
  app : App
  emittedLog : List Emission
deriving DecidableEq, Repr

/-- The state at process startup: the allow-list is initialized to
`ALLOWED_MENU_IDS` (a `const`, fixed at compile/startup time). -/
def initState (app : App) : ProcState :=
  { allowList := ALLOWED_MENU_IDS, app := app, emittedLog := [] }

/-- The operations the running process performs after startup: a menu
dispatch, an invocation of the sign-out command, or a change of the
window set by the host framework. -/
inductive Op
  | menuEvent (id : String)
  | signOutCommand (window : Window)
  | windowChange (app : App)
deriving DecidableEq, Repr

/-- Effect of one operation on the process state. No operation writes the
allow-list component: the source declares `ALLOWED_MENU_IDS` as a `const`
and contains no code that inserts into, removes from, or reassigns it. -/
def applyOp (st : ProcState) (op : Op) : ProcState :=
  match op with
  | Op.menuEvent id =>
    { st with emittedLog := st.emittedLog ++ (on_menu_event st.app id).signals }
  | Op.signOutCommand window =>
    { st with emittedLog := st.emittedLog ++ sign_out window }
  | Op.windowChange app =>
    { st with app := app }

/-- Run a sequence of operations from a state. -/
def runOps (st : ProcState) : List Op → ProcState
  | [] => st
  | op :: ops => runOps (applyOp st op) ops

theorem is_valid_menu_id_iff (s : String) :
    is_valid_menu_id s = true ↔ s = "preferences" ∨ s = "sign_out" := by
  simp [is_valid_menu_id, ALLOWED_MENU_IDS, List.contains, beq_iff_eq]

theorem get_webview_window_label (app : App) (l : String) (w : Window)
    (h : get_webview_window app l = some w) : w.label = l := by
  unfold get_webview_window at h
  have hp := List.find?_some h
  simpa [beq_iff_eq] using hp

theorem emit_to_main_from_lookup (app : App) (name : String) :
    (emit_to_main (get_webview_window app "main") name).outcome ≠
      DispatchOutcome.discardedWrongLabel := by
  cases hw : get_webview_window app "main" with
  | none => simp [emit_to_main]
  | some w =>
    have hl : w.label = "main" := get_webview_window_label app "main" w hw
    simp only [emit_to_main, hl, ne_eq, not_true_eq_false, if_false]
    cases emit w name <;> simp

/-- C1: invoking the explicitly callable sign_out command (the non-menu
command path, with no arguments beyond the invoking window) emits exactly
one signal, named "sign-out", with unit payload, to the invoking window —
for every window, with no reference to the allow-list. -/
theorem sign_out_emits_one_sign_out (window : Window) :
    (sign_out window).length = 1 ∧
    sign_out window = [⟨window.label, "sign-out", ()⟩] :=
  ⟨rfl, rfl⟩

/-- C2: for every identifier s that is not a member of the allow-list
{"preferences", "sign_out"}, dispatching a menu event with identifier s
emits zero signals and raises no error: whatever the window state, the
dispatcher returns normally with the event silently discarded as
invalid. -/
theorem invalid_menu_id_discarded (app : App) (s : String)
    (h1 : s ≠ "preferences") (h2 : s ≠ "sign_out") :
    (on_menu_event app s).signals = [] ∧
    (on_menu_event app s).outcome = DispatchOutcome.discardedInvalidId := by
  have hv : is_valid_menu_id s = false := by
    cases hv : is_valid_menu_id s with
    | false => rfl
    | true =>
      rcases (is_valid_menu_id_iff s).mp hv with h | h
      · exact absurd h h1
      · exact absurd h h2
  constructor <;> simp [on_menu_event, menu_dispatch_with, hv]

theorem invalid_menu_id_discarded_witness :
    ("quit" ≠ "preferences") ∧ ("quit" ≠ "sign_out") ∧
    ((on_menu_event ⟨[⟨"main", false⟩]⟩ "quit").signals = [] ∧
     (on_menu_event ⟨[⟨"main", false⟩]⟩ "quit").outcome =
       DispatchOutcome.discardedInvalidId) :=
  ⟨by decide, by decide,
   invalid_menu_id_discarded ⟨[⟨"main", false⟩]⟩ "quit" (by decide) (by decide)⟩

/-- C3: dispatching the menu event identifier "preferences" when a window
labeled "main" exists and its label equals "main" emits exactly one
signal, named "navigate-to-preferences", with unit payload, to that
window. -/
theorem preferences_emits_navigate (app : App) (window : Window)
    (hw : get_webview_window app "main" = some window)
    (hl : window.label = "main") :
    (on_menu_event app "preferences").signals =
      [⟨"main", "navigate-to-preferences", ()⟩] := by
  have hv : is_valid_menu_id "preferences" = true := by decide
  unfold on_menu_event menu_dispatch_with
  rw [hw]
  simp only [hv, Bool.true_eq_false, if_false, if_pos rfl]
  cases hf : window.emitFails <;>
    simp [emit_to_main, emit, hl, hf]

theorem preferences_emits_navigate_witness :
    get_webview_window ⟨[⟨"main", false⟩]⟩ "main" = some ⟨"main", false⟩ ∧
    (Window.mk "main" false).label = "main" ∧
    (on_menu_event ⟨[⟨"main", false⟩]⟩ "preferences").signals =
      [⟨"main", "navigate-to-preferences", ()⟩] :=
  ⟨by decide, by decide,
   preferences_emits_navigate ⟨[⟨"main", false⟩]⟩ ⟨"main", false⟩
     (by decide) (by decide)⟩

/-- C4: dispatching the menu event identifier "sign_out" when a window
labeled "main" exists and its label equals "main" emits exactly one
signal, named "sign-out-user", with unit payload, to that window. -/
theorem sign_out_menu_emits_sign_out_user (app : App) (window : Window)
    (hw : get_webview_window app "main" = some window)
    (hl : window.label = "main") :
    (on_menu_event app "sign_out").signals =
      [⟨"main", "sign-out-user", ()⟩] := by
  have hv : is_valid_menu_id "sign_out" = true := by decide
  unfold on_menu_event menu_dispatch_with
  rw [hw]
  simp only [hv, Bool.true_eq_false, if_false, if_true]
  cases hf : window.emitFails <;>
    simp [emit_to_main, emit, hl, hf]

theorem sign_out_menu_emits_sign_out_user_witness :
    get_webview_window ⟨[⟨"main", false⟩]⟩ "main" = some ⟨"main", false⟩ ∧
    (Window.mk "main" false).label = "main" ∧
    (on_menu_event ⟨[⟨"main", false⟩]⟩ "sign_out").signals =
      [⟨"main", "sign-out-user", ()⟩] :=
  ⟨by decide, by decide,
   sign_out_menu_emits_sign_out_user ⟨[⟨"main", false⟩]⟩ ⟨"main", false⟩
     (by decide) (by decide)⟩

/-- C5: for every allow-listed identifier, dispatching it when no window
labeled "main" exists emits zero signals and does not raise an error to
the caller: the dispatcher returns normally with the event silently
discarded for lack of a target window. -/
theorem no_main_window_discards (app : App) (id : String)
    (hid : is_valid_menu_id id = true)
    (hw : ∀ w ∈ app.windows, w.label ≠ "main") :
    (on_menu_event app id).signals = [] ∧
    (on_menu_event app id).outcome = DispatchOutcome.discardedNoWindow := by
  have hnone : get_webview_window app "main" = none := by
    unfold get_webview_window
    rw [List.find?_eq_none]
    intro w hwmem
    simpa [beq_iff_eq] using hw w hwmem
  rcases (is_valid_menu_id_iff id).mp hid with h | h <;> subst h <;>
    constructor <;>
    simp [on_menu_event, menu_dispatch_with, hnone, emit_to_main, hid]

theorem no_main_window_discards_witness :
    is_valid_menu_id "preferences" = true ∧
    (∀ w ∈ (App.mk [⟨"secondary", false⟩]).windows, w.label ≠ "main") ∧
    ((on_menu_event ⟨[⟨"secondary", false⟩]⟩ "preferences").signals = [] ∧
     (on_menu_event ⟨[⟨"secondary", false⟩]⟩ "preferences").outcome =
       DispatchOutcome.discardedNoWindow) :=
  ⟨by decide, by decide,
   no_main_window_discards ⟨[⟨"secondary", false⟩]⟩ "preferences"
     (by decide) (by decide)⟩

/-- C6: for every allow-listed identifier, if the window the dispatcher is
handed as the resolution result has a label different from "main" (for
example "secondary"), the dispatch emits zero signals: the event is
discarded by the label check before any emission. -/
theorem wrong_label_discards (window : Window) (id : String)
    (hid : is_valid_menu_id id = true)
    (hl : window.label ≠ "main") :
    (menu_dispatch_with (some window) id).signals = [] ∧
    (menu_dispatch_with (some window) id).outcome =
      DispatchOutcome.discardedWrongLabel := by
  rcases (is_valid_menu_id_iff id).mp hid with h | h <;> subst h <;>
    constructor <;>
    simp [menu_dispatch_with, emit_to_main, hid, hl]

theorem wrong_label_discards_witness :
    is_valid_menu_id "preferences" = true ∧
    (Window.mk "secondary" false).label ≠ "main" ∧
    ((menu_dispatch_with (some ⟨"secondary", false⟩) "preferences").signals = [] ∧
     (menu_dispatch_with (some ⟨"secondary", false⟩) "preferences").outcome =
       DispatchOutcome.discardedWrongLabel) :=
  ⟨by decide, by decide,
   wrong_label_discards ⟨"secondary", false⟩ "preferences" (by decide) (by decide)⟩

/-- C7: the allow-list is immutable for the life of the process: it equals
["preferences", "sign_out"] at startup, and after any sequence of
operations (menu dispatches, sign-out command invocations, window
changes) it is unchanged. -/
theorem allow_list_immutable (app : App) (ops : List Op) :
    (initState app).allowList = ["preferences", "sign_out"] ∧
    (runOps (initState app) ops).allowList = (initState app).allowList := by
  refine ⟨rfl, ?_⟩
  have key : ∀ (ops : List Op) (st : ProcState),
      (runOps st ops).allowList = st.allowList := by
    intro ops
    induction ops with
    | nil => intro st; rfl
    | cons op ops ih =>
      intro st
      rw [runOps, ih]
      cases op <;> rfl
  exact key ops (initState app)

/-- C8: for every menu dispatch in which the emission call itself fails,
the failure is non-fatal: the dispatcher absorbs the error into the
emit-failed-nonfatal terminal state (returning normally, propagating
nothing to the caller), makes exactly one emit call (no retry), and the
emitted-signal record is identical to the one produced when emission
succeeds. -/
theorem emit_failure_nonfatal (window : Window) (id : String)
    (hid : is_valid_menu_id id = true)
    (hl : window.label = "main")
    (hf : window.emitFails = true) :
    (menu_dispatch_with (some window) id).outcome =
      DispatchOutcome.emitFailedNonfatal ∧
    (menu_dispatch_with (some window) id).signals.length = 1 ∧
    (menu_dispatch_with (some window) id).signals =
      (menu_dispatch_with (some ⟨"main", false⟩) id).signals := by
  rcases (is_valid_menu_id_iff id).mp hid with h | h <;> subst h <;>
    refine ⟨?_, ?_, ?_⟩ <;>
    simp [menu_dispatch_with, emit_to_main, emit, hid, hl, hf]

theorem emit_failure_nonfatal_witness :
    is_valid_menu_id "preferences" = true ∧
    (Window.mk "main" true).label = "main" ∧
    (Window.mk "main" true).emitFails = true ∧
    ((menu_dispatch_with (some ⟨"main", true⟩) "preferences").outcome =
       DispatchOutcome.emitFailedNonfatal ∧
     (menu_dispatch_with (some ⟨"main", true⟩) "preferences").signals.length = 1 ∧
     (menu_dispatch_with (some ⟨"main", true⟩) "preferences").signals =
       (menu_dispatch_with (some ⟨"main", false⟩) "preferences").signals) :=
  ⟨by decide, by decide, by decide,
   emit_failure_nonfatal ⟨"main", true⟩ "preferences"
     (by decide) (by decide) (by decide)⟩

/-- C9: the wrong-label discard branch is unreachable in the dispatcher as
wired in main: the window handle is resolved by looking up the label
"main", so whenever a window is found its label equals "main" and no
dispatch ever terminates in the discarded-wrong-label state. -/
theorem wrong_label_branch_unreachable (app : App) (id : String) :
    (on_menu_event app id).outcome ≠ DispatchOutcome.discardedWrongLabel := by
  unfold on_menu_event menu_dispatch_with
  split
  · simp
  · split
    · exact emit_to_main_from_lookup app "navigate-to-preferences"
    · split
      · exact emit_to_main_from_lookup app "sign-out-user"
      · simp

/-- C10: the allow-list pre-check is observationally redundant for
emission: for every resolution result and every identifier, the
dispatcher with the is_valid_menu_id guard removed emits exactly the same
signals as the dispatcher with the guard, because the match handles
exactly the two allow-listed values and sends every other identifier to
the explicit no-op arm. -/
theorem guard_removal_preserves_signals (resolved : Option Window) (id : String) :
    (menu_dispatch_no_guard resolved id).signals =
      (menu_dispatch_with resolved id).signals := by
  by_cases h1 : id = "preferences"
  · have hv : is_valid_menu_id "preferences" = true := by decide
    subst h1
    simp [menu_dispatch_no_guard, menu_dispatch_with, hv]
  · by_cases h2 : id = "sign_out"
    · have hv : is_valid_menu_id "sign_out" = true := by decide
      subst h2
      simp [menu_dispatch_no_guard, menu_dispatch_with, hv]
    · have hv : is_valid_menu_id id = false := by
        cases hv : is_valid_menu_id id with
        | false => rfl
        | true =>
          rcases (is_valid_menu_id_iff id).mp hv with h | h
          · exact absurd h h1
          · exact absurd h h2
      simp [menu_dispatch_no_guard, menu_dispatch_with, hv, h1, h2]

end TodoApp
